import Mathlib

/-!
A shallow embedding of the Trench Run simulation core (`src/game/main.js`,
final iteration) over exact rational arithmetic, together with theorems
checking the natural-language specification against it.  JavaScript numbers
are modelled as `ℚ`, the 32-bit LCG state as `ℕ` reduced modulo `2 ^ 32`,
and the unseeded `Math.random()` calls as an explicit ambient stream of
rationals passed to the frame update.
-/

set_option maxRecDepth 40000

namespace TrenchRun

/-- JavaScript `clamp(v, lo, hi) = Math.max(lo, Math.min(hi, v))`. -/
def jsClamp (v lo hi : ℚ) : ℚ := max lo (min hi v)

/-- `lerp(a, b, t) = a + (b - a) * t`. -/
def lerp (a b t : ℚ) : ℚ := a + (b - a) * t

/-- One step of the 32-bit linear congruential generator in `makeRng`:
`s = (1664525 * s + 1013904223) >>> 0`. -/
def rngStep (s : ℕ) : ℕ := (1664525 * s + 1013904223) % 4294967296

/-- One draw from the seeded stream: the closure advances the state and
returns `s / 4294967296`.  Result: (value, new state). -/
def rngDraw (s : ℕ) : ℚ × ℕ := ((rngStep s : ℚ) / 4294967296, rngStep s)

/-- `makeRng(seed)` stores `seed >>> 0` as the initial state. -/
def mkRng (seed : ℕ) : ℕ := seed % 4294967296

/-- `game.shipZ` (fixed ship depth). -/
def shipZ : ℚ := 160

/-- `game.shipHitR`. -/
def shipHitR : ℚ := 42

/-- `TUNE.farZ` (far render depth). -/
def farZ : ℚ := 3000

/-- `TUNE.trenchHalfH`. -/
def trenchHalfH : ℚ := 140

/-- `TUNE.sitLowerY` (default ship y). -/
def sitLowerY : ℚ := -55

/-- `TUNE.padX`. -/
def padX : ℚ := 92

/-- `TUNE.padY`. -/
def padY : ℚ := 46

/-- `TUNE.xAccel`. -/
def xAccel : ℚ := 9

/-- `TUNE.yAccel`. -/
def yAccel : ℚ := 15 / 2

/-- `TUNE.damp`. -/
def damp : ℚ := 86 / 100

/-- `TUNE.fov`. -/
def fov : ℚ := 580

/-- `TUNE.yScale`. -/
def yScaleC : ℚ := 12 / 10

/-- `TUNE.laserCooldown`. -/
def laserCooldownC : ℚ := 18 / 100

/-- `TUNE.missileCooldown`. -/
def missileCooldownC : ℚ := 80 / 100

/-- `TUNE.aimTargetZ`. -/
def aimTargetZ : ℚ := 1500

/-- `TUNE.hitRadius`. -/
def hitRadiusC : ℚ := 80

/-- `TUNE.enemyZWindow`. -/
def enemyZWindow : ℚ := 90

/-- `TUNE.enemySpawnMin`. -/
def enemySpawnMin : ℚ := 8 / 5

/-- `TUNE.enemySpawnMax`. -/
def enemySpawnMax : ℚ := 29 / 10

/-- `TUNE.enemyShotsChance`. -/
def enemyShotsChance : ℚ := 24 / 100

/-- `TUNE.enemyShotCooldownMin`. -/
def enemyShotCdMin : ℚ := 3 / 2

/-- `TUNE.enemyShotCooldownMax`. -/
def enemyShotCdMax : ℚ := 26 / 10

/-- `TUNE.pipeChance`. -/
def pipeChance : ℚ := 3 / 10

/-- `trenchHalfWAt(z)` from the source, parameterised by the current
`game.trenchNearHalfW` / `game.trenchFarHalfW`:
`lerp(near, far, clamp((z - shipZ) / (farZ - shipZ), 0, 1))`. -/
def trenchHalfWAt (near far z : ℚ) : ℚ :=
  lerp near far (jsClamp ((z - shipZ) / (farZ - shipZ)) 0 1)

/-- Modelled from the spec: the corridor half-width formula exactly as the
spec writes it, `lerp(farHalfWidth, nearHalfWidth, clamp((z - shipZ) /
(farZ - shipZ), 0, 1))`, for comparison against `trenchHalfWAt`. -/
def corridorHalfWidthSpec (near far z : ℚ) : ℚ :=
  lerp far near (jsClamp ((z - shipZ) / (farZ - shipZ)) 0 1)

/-- `cam.project(x, y, z)` returning (screenX, screenY, scale); the canvas
size, horizon and pitch are parameters snapshotted per frame. -/
def project (w h horizonY pitch x y z : ℚ) : ℚ × ℚ × ℚ :=
  let zz := max 40 z
  let s := fov / (zz + fov)
  let sx := w * (1 / 2) + x * s
  let sy := horizonY + s * (h - horizonY) - y * s * yScaleC + pitch * (1 - s)
  (sx, sy, s)

/-- The scale component of `cam.project`. -/
def projectScale (z : ℚ) : ℚ := fov / (max 40 z + fov)

/-- The player ship: position, velocity. -/
structure Ship where
  x : ℚ
  y : ℚ
  vx : ℚ
  vy : ℚ
deriving DecidableEq, Repr

/-- Owner tag of a `LaserShot`. -/
inductive Owner where
  | player
  | enemy
deriving DecidableEq, Repr

/-- `LaserShot` (player or enemy laser). -/
structure LaserShot where
  x : ℚ
  y : ℚ
  z : ℚ
  owner : Owner
  alive : Bool
  age : ℚ
  speed : ℚ
  vx : ℚ
  vy : ℚ
deriving DecidableEq, Repr

/-- `MissileShot`; speed 720 and trail capacity 14 are fixed in the class. -/
structure MissileShot where
  x : ℚ
  y : ℚ
  z : ℚ
  alive : Bool
  trail : List (ℚ × ℚ × ℚ)
deriving DecidableEq, Repr

/-- The heterogeneous `game.playerShots` holds lasers and missiles. -/
inductive PlayerShot where
  | laser : LaserShot → PlayerShot
  | missile : MissileShot → PlayerShot
deriving DecidableEq, Repr

/-- `Enemy` interceptor. -/
structure Enemy where
  x : ℚ
  y : ℚ
  z : ℚ
  vx : ℚ
  vy : ℚ
  hp : ℤ
  alive : Bool
  fireCd : ℚ
deriving DecidableEq, Repr

/-- `Pipe` wall obstacle. -/
structure Pipe where
  side : ℚ
  y : ℚ
  z : ℚ
  protrude : ℚ
  thickness : ℚ
  alive : Bool
deriving DecidableEq, Repr

/-- The game state machine states. -/
inductive GState where
  | title
  | playing
  | paused
  | gameover
deriving DecidableEq, Repr

/-- The mutable `game` object. -/
structure GameState where
  state : GState
  rng : ℕ
  t : ℚ
  trenchNearHalfW : ℚ
  trenchFarHalfW : ℚ
  scrollSpeed : ℚ
  ship : Ship
  round : ℕ
  score : ℤ
  lives : ℤ
  missiles : ℤ
  laserCd : ℚ
  missileCd : ℚ
  laserSide : ℚ
  enemies : List Enemy
  pipes : List Pipe
  playerShots : List PlayerShot
  enemyShots : List LaserShot
  enemyTimer : ℚ
  pipeTimer : ℚ
deriving DecidableEq, Repr

/-- Held controls for one frame (polled key set). -/
structure Input where
  left : Bool
  right : Bool
  up : Bool
  descend : Bool
  fire : Bool
  missileKey : Bool
  nextKey : Bool
deriving DecidableEq, Repr

/-- The no-keys-held input. -/
def noInput : Input := ⟨false, false, false, false, false, false, false⟩

/-- `LaserShot.update(dt)`. -/
def laserShotUpdate (scroll dt : ℚ) (s : LaserShot) : LaserShot :=
  let s := { s with age := s.age + dt }
  let s :=
    if s.owner = Owner.player then
      { s with x := s.x + s.vx * dt, y := s.y + s.vy * dt, z := s.z + s.speed * dt }
    else
      { s with z := s.z - s.speed * dt }
  let s := { s with z := s.z - scroll * dt }
  let s := if farZ + 350 < s.z then { s with alive := false } else s
  if s.z < shipZ - 280 then { s with alive := false } else s

/-- `MissileShot.update(dt)`. -/
def missileShotUpdate (scroll dt : ℚ) (m : MissileShot) : MissileShot :=
  let trail := m.trail ++ [(m.x, m.y, m.z)]
  let trail := if 14 < trail.length then trail.drop 1 else trail
  let m := { m with trail := trail, z := m.z + 720 * dt - scroll * dt }
  if farZ + 350 < m.z then { m with alive := false } else m

/-- Dispatch of `update` over the heterogeneous player-shot list. -/
def playerShotUpdate (scroll dt : ℚ) : PlayerShot → PlayerShot
  | PlayerShot.laser s => PlayerShot.laser (laserShotUpdate scroll dt s)
  | PlayerShot.missile m => PlayerShot.missile (missileShotUpdate scroll dt m)

/-- `Pipe.update(dt)`. -/
def pipeUpdate (scroll dt : ℚ) (p : Pipe) : Pipe :=
  let p := { p with z := p.z - scroll * dt }
  if p.z < shipZ - 280 then { p with alive := false } else p

/-- The enemy laser pushed by `Enemy.update` (enemy branch of the
`LaserShot` constructor: speed 720, no lateral velocity). -/
def enemyLaser (x y z : ℚ) : LaserShot :=
  { x := x, y := y, z := z, owner := Owner.enemy, alive := true, age := 0
    speed := 720, vx := 0, vy := 0 }

/-- `Enemy.update(dt)`: steering, movement, scroll, fire-cooldown logic
(one seeded draw for the resampled cooldown, one ambient `Math.random()`
draw for the fire decision) and retirement.  Returns the updated enemy,
the advanced seeded-rng state, the advanced ambient index and the list of
newly pushed enemy shots. -/
def enemyUpdate (amb : ℕ → ℚ) (sx sy scroll dt : ℚ) (rng k : ℕ) (e : Enemy) :
    Enemy × ℕ × ℕ × List LaserShot :=
  let stx := jsClamp ((sx - e.x) * (8 / 100)) (-(25 / 100)) (25 / 100)
  let sty := jsClamp ((sy - e.y) * (7 / 100)) (-(22 / 100)) (22 / 100)
  let vx := jsClamp (e.vx + stx * dt) (-(9 / 10)) (9 / 10)
  let vy := jsClamp (e.vy + sty * dt) (-(75 / 100)) (75 / 100)
  let em := { e with
    vx := vx, vy := vy
    x := e.x + vx * dt * 60, y := e.y + vy * dt * 60
    z := e.z - scroll * dt, fireCd := e.fireCd - dt }
  let fired :=
    if em.fireCd ≤ 0 ∧ em.z < shipZ + 1100 ∧ shipZ + 260 < em.z then
      let r := rngDraw rng
      let e1 := { em with fireCd := enemyShotCdMin + r.1 * (enemyShotCdMax - enemyShotCdMin) }
      (e1, r.2, k + 1,
        if amb k < enemyShotsChance then [enemyLaser e1.x e1.y e1.z] else [])
    else
      (em, rng, k, ([] : List LaserShot))
  let e2 := if fired.1.z < shipZ - 160 then { fired.1 with alive := false } else fired.1
  (e2, fired.2.1, fired.2.2.1, fired.2.2.2)

/-- Result of running `Enemy.update` over the whole `game.enemies` array. -/
structure EnemyPass where
  enemies : List Enemy
  rng : ℕ
  k : ℕ
  shots : List LaserShot
deriving DecidableEq, Repr

/-- `for (const e of game.enemies) e.update(dt)`, threading the shared
seeded stream, the ambient index and the pushed enemy shots in array
order. -/
def updateEnemies (amb : ℕ → ℚ) (sx sy scroll dt : ℚ) :
    List Enemy → ℕ → ℕ → EnemyPass
  | [], rng, k => ⟨[], rng, k, []⟩
  | e :: es, rng, k =>
    let r := enemyUpdate amb sx sy scroll dt rng k e
    let rest := updateEnemies amb sx sy scroll dt es r.2.1 r.2.2.1
    ⟨r.1 :: rest.enemies, rest.rng, rest.k, r.2.2.2 ++ rest.shots⟩

/-- `Pipe.collidesWithShip()`. -/
def pipeCollides (sx sy near far : ℚ) (p : Pipe) : Bool :=
  if 95 < |p.z - shipZ| then false
  else
    let halfW := trenchHalfWAt near far p.z
    let wallX := p.side * halfW
    let innerX := wallX - p.side * p.protrude
    decide (min wallX innerX < sx + shipHitR) &&
      decide (sx - shipHitR < max wallX innerX) &&
      decide (|sy - p.y| < 45)

/-- The enemy-shot-vs-ship test in `update`. -/
def enemyShotHits (sx sy : ℚ) (s : LaserShot) : Bool :=
  decide (|s.z - shipZ| < 120) &&
    decide ((s.x - sx) * (s.x - sx) + (s.y - sy) * (s.y - sy)
      < (shipHitR * (95 / 100)) ^ 2)

/-- Liveness of a player shot. -/
def shotAlive : PlayerShot → Bool
  | PlayerShot.laser s => s.alive
  | PlayerShot.missile m => m.alive

/-- x of a player shot. -/
def shotX : PlayerShot → ℚ
  | PlayerShot.laser s => s.x
  | PlayerShot.missile m => m.x

/-- y of a player shot. -/
def shotY : PlayerShot → ℚ
  | PlayerShot.laser s => s.y
  | PlayerShot.missile m => m.y

/-- z of a player shot. -/
def shotZ : PlayerShot → ℚ
  | PlayerShot.laser s => s.z
  | PlayerShot.missile m => m.z

/-- `ps.alive = false`. -/
def killShot : PlayerShot → PlayerShot
  | PlayerShot.laser s => PlayerShot.laser { s with alive := false }
  | PlayerShot.missile m => PlayerShot.missile { m with alive := false }

/-- `ps instanceof MissileShot ? 2 : 1`. -/
def shotDamage : PlayerShot → ℤ
  | PlayerShot.laser _ => 1
  | PlayerShot.missile _ => 2

/-- `ps instanceof MissileShot ? 220 : 120`. -/
def shotPoints : PlayerShot → ℤ
  | PlayerShot.laser _ => 120
  | PlayerShot.missile _ => 220

/-- `Enemy.hit(dmg)`. -/
def enemyHit (dmg : ℤ) (e : Enemy) : Enemy :=
  let hp := e.hp - dmg
  { e with hp := hp, alive := if hp ≤ 0 then false else e.alive }

/-- Inner loop of the player-shot-vs-enemy resolution for one shot:
returns the shot (possibly killed), the enemy list (damage applied in
place) and the score delta. -/
def hitEnemies : PlayerShot → List Enemy → PlayerShot × List Enemy × ℤ
  | ps, [] => (ps, [], 0)
  | ps, e :: es =>
    if shotAlive ps = true ∧ e.alive = true ∧ |shotZ ps - e.z| < enemyZWindow ∧
        (shotX ps - e.x) * (shotX ps - e.x) + (shotY ps - e.y) * (shotY ps - e.y)
          < hitRadiusC * hitRadiusC then
      let r := hitEnemies (killShot ps) es
      (r.1, enemyHit (shotDamage ps) e :: r.2.1, shotPoints ps + r.2.2)
    else
      let r := hitEnemies ps es
      (r.1, e :: r.2.1, r.2.2)

/-- Result of the player-shot-vs-enemy phase. -/
structure ShotsRes where
  shots : List PlayerShot
  enemies : List Enemy
  pts : ℤ
deriving DecidableEq, Repr

/-- Outer loop of the player-shot-vs-enemy resolution. -/
def resolveShots : List PlayerShot → List Enemy → ShotsRes
  | [], es => ⟨[], es, 0⟩
  | ps :: rest, es =>
    let r := hitEnemies ps es
    let r2 := resolveShots rest r.2.1
    ⟨r.1 :: r2.shots, r2.enemies, r.2.2 + r2.pts⟩

/-- The seeded-rng state after `n` draws. -/
def rngAdvance (n s : ℕ) : ℕ := rngStep^[n] s

/-- The base spawn-depth offset in `game.spawnEnemy`: 900 ahead of the
ship for round-start prefills, 1600 for in-round spawns. -/
def spawnBaseZ : Bool → ℚ
  | true => 900
  | false => 1600

/-- The random spawn-depth range in `game.spawnEnemy`: 900 for prefills,
950 for in-round spawns. -/
def spawnRangeZ : Bool → ℚ
  | true => 900
  | false => 950

/-- The enemy constructed by one call of `game.spawnEnemy(prefill)`: three
seeded draws for the placement, then three more inside the `Enemy`
constructor.  `z` is `prefill ? shipZ + 900 + r * 900 : shipZ + 1600 +
r * 950`, written via `spawnBaseZ` / `spawnRangeZ`. -/
def spawnedEnemy (prefill : Bool) (g : GameState) : Enemy :=
  let halfW := g.trenchNearHalfW
  let r1 := rngDraw g.rng
  let x := (r1.1 * 2 - 1) * (halfW - 95)
  let r2 := rngDraw r1.2
  let y := (r2.1 * 2 - 1) * (trenchHalfH * (50 / 100)) - 10
  let r3 := rngDraw r2.2
  let z := shipZ + spawnBaseZ prefill + r3.1 * spawnRangeZ prefill
  let r4 := rngDraw r3.2
  let r5 := rngDraw r4.2
  let r6 := rngDraw r5.2
  { x := x, y := y, z := z
    vx := (r4.1 * 2 - 1) * (45 / 100)
    vy := (r5.1 * 2 - 1) * (30 / 100)
    hp := 2, alive := true
    fireCd := enemyShotCdMin + r6.1 * (enemyShotCdMax - enemyShotCdMin) }

/-- `game.spawnEnemy(prefill)`: pushes the constructed enemy; the six
draws advance the shared seeded stream. -/
def spawnEnemy (prefill : Bool) (g : GameState) : GameState :=
  { g with rng := rngAdvance 6 g.rng, enemies := g.enemies ++ [spawnedEnemy prefill g] }

/-- The pipe constructed by one call of `game.spawnPipe()`: five seeded
draws. -/
def spawnedPipe (g : GameState) : Pipe :=
  let r1 := rngDraw g.rng
  let side : ℚ := if r1.1 < 1 / 2 then -1 else 1
  let r2 := rngDraw r1.2
  let z := shipZ + 1500 + r2.1 * 1100
  let r3 := rngDraw r2.2
  let y := (r3.1 * 2 - 1) * (trenchHalfH * (55 / 100))
  let r4 := rngDraw r3.2
  let protrude := 60 + r4.1 * 120
  let r5 := rngDraw r4.2
  let thickness := 10 + r5.1 * 16
  { side := side, y := y, z := z, protrude := protrude
    thickness := thickness, alive := true }

/-- `game.spawnPipe()`: pushes the constructed pipe; the five draws
advance the shared seeded stream. -/
def spawnPipe (g : GameState) : GameState :=
  { g with rng := rngAdvance 5 g.rng, pipes := g.pipes ++ [spawnedPipe g] }

/-- Number of pre-seeded enemies on round start:
`1 + Math.min(2, Math.floor(round / 2))`. -/
def prefillCount (round : ℕ) : ℕ := 1 + min 2 (round / 2)

/-- The field resets of `game.resetRound()` before the prefill loop. -/
def resetRoundBase (g : GameState) : GameState :=
  { state := g.state
    rng := mkRng (9000 + g.round * 101)
    t := g.t
    trenchNearHalfW := g.trenchNearHalfW
    trenchFarHalfW := g.trenchFarHalfW
    scrollSpeed := g.scrollSpeed
    ship := { x := 0, y := sitLowerY, vx := 0, vy := 0 }
    round := g.round
    score := g.score
    lives := g.lives
    missiles := g.missiles
    laserCd := 0
    missileCd := 0
    laserSide := -1
    enemies := []
    pipes := []
    playerShots := []
    enemyShots := []
    enemyTimer := 1
    pipeTimer := 3 / 2 }

/-- `game.resetRound()`: resets the round state, re-seeds the RNG from the
round number and pre-seeds enemies. -/
def resetRound (g : GameState) : GameState :=
  (spawnEnemy true)^[prefillCount g.round] (resetRoundBase g)

/-- `game.loseLife()`. -/
def loseLife (g : GameState) : GameState :=
  let g := { g with lives := g.lives - 1 }
  if g.lives ≤ 0 then { g with state := GState.gameover } else resetRound g

/-- The debug round-advancement branch of `update` (`N` key). -/
def advanceRound (g : GameState) : GameState :=
  resetRound { g with
    round := g.round + 1
    scrollSpeed := min 920 (g.scrollSpeed + 40)
    missiles := min 6 (g.missiles + 1) }

/-- `game.newGame()`. -/
def newGame (g : GameState) : GameState :=
  let g := { g with
    round := 1, score := 0, lives := 3, missiles := 3
    scrollSpeed := 600, trenchNearHalfW := 320, trenchFarHalfW := 120 }
  { resetRound g with state := GState.playing }

/-- `game.fireLaser()`: guarded by the laser cooldown; flips the
alternating gun side and pushes one aimed player laser. -/
def fireLaser (g : GameState) : GameState :=
  if 0 < g.laserCd then g
  else
    let side := -g.laserSide
    let gunX := g.ship.x + side * 78
    let gunY := g.ship.y - 6
    let z0 := shipZ + 70
    let dz := max 1 (shipZ + aimTargetZ - z0)
    let dx := g.ship.x - gunX
    let dy := g.ship.y - gunY
    let shot : LaserShot := { x := gunX, y := gunY, z := z0, owner := Owner.player
                              alive := true, age := 0, speed := 980
                              vx := dx / dz * 980, vy := dy / dz * 980 }
    { g with
      laserCd := laserCooldownC, laserSide := side
      playerShots := g.playerShots ++ [PlayerShot.laser shot] }

/-- `game.fireMissile()`: guarded by the missile cooldown and the missile
count; decrements the count and pushes one missile. -/
def fireMissile (g : GameState) : GameState :=
  if 0 < g.missileCd then g
  else if g.missiles ≤ 0 then g
  else
    let shot : MissileShot := { x := g.ship.x, y := g.ship.y, z := shipZ + 85
                                alive := true, trail := [] }
    { g with
      missiles := g.missiles - 1, missileCd := missileCooldownC
      playerShots := g.playerShots ++ [PlayerShot.missile shot] }

/-- The horizontal input axis: `(right ? 1 : 0) - (left ? 1 : 0)`. -/
def axisX (inp : Input) : ℚ := (if inp.right then 1 else 0) - (if inp.left then 1 else 0)

/-- The vertical input axis: `(down ? 1 : 0) - (up ? 1 : 0)`. -/
def axisY (inp : Input) : ℚ := (if inp.descend then 1 else 0) - (if inp.up then 1 else 0)

/-- The timer tick, input integration, damping and the per-frame clamp of
the ship to the corridor bounds at `shipZ` (first phase of `update`). -/
def integrateShip (inp : Input) (dt : ℚ) (g : GameState) : GameState :=
  let vx := (g.ship.vx + axisX inp * xAccel) * damp
  let vy := (g.ship.vy + axisY inp * yAccel) * damp
  let halfW := trenchHalfWAt g.trenchNearHalfW g.trenchFarHalfW shipZ
  let x := jsClamp (g.ship.x + vx * dt * 60) (-halfW + padX) (halfW - padX)
  let y := jsClamp (g.ship.y + vy * dt * 60) (-trenchHalfH + padY) (trenchHalfH - padY)
  { g with
    t := g.t + dt
    laserCd := max 0 (g.laserCd - dt), missileCd := max 0 (g.missileCd - dt)
    ship := { x := x, y := y, vx := vx, vy := vy } }

/-- The fire-controls phase of `update`. -/
def fireStep (inp : Input) (g : GameState) : GameState :=
  let g := if inp.fire then fireLaser g else g
  if inp.missileKey then fireMissile g else g

/-- The spawner phase of `update`: the enemy interval is resampled from
the seeded stream every frame; the pipe decision consumes one ambient
`Math.random()` draw when its timer fires.  Returns the state and the
next ambient index. -/
def spawnStep (amb : ℕ → ℚ) (dt : ℚ) (g : GameState) : GameState × ℕ :=
  let r := rngDraw g.rng
  let enemyEvery := jsClamp
    (enemySpawnMin + (enemySpawnMax - enemySpawnMin) * r.1 - (g.round : ℚ) * (2 / 100))
    (95 / 100) (16 / 5)
  let g1 := { g with rng := r.2, enemyTimer := g.enemyTimer - dt }
  let g2 :=
    if g1.enemyTimer ≤ 0 then
      spawnEnemy false { g1 with enemyTimer := g1.enemyTimer + enemyEvery }
    else g1
  let g3 := { g2 with pipeTimer := g2.pipeTimer - dt }
  let pipeEvery := jsClamp ((29 / 10) - (g3.round : ℚ) * (1 / 20)) (3 / 2) (29 / 10)
  if g3.pipeTimer ≤ 0 then
    let g4 := { g3 with pipeTimer := g3.pipeTimer + pipeEvery }
    (if amb 0 < pipeChance then spawnPipe g4 else g4, 1)
  else (g3, 0)

/-- The entity-update phase of `update`: enemies (pushing new enemy shots
before the enemy-shot pass), pipes, player shots, enemy shots. -/
def entitiesStep (amb : ℕ → ℚ) (k : ℕ) (dt : ℚ) (g : GameState) : GameState :=
  let r := updateEnemies amb g.ship.x g.ship.y g.scrollSpeed dt g.enemies g.rng k
  { g with
    rng := r.rng, enemies := r.enemies
    pipes := g.pipes.map (pipeUpdate g.scrollSpeed dt)
    playerShots := g.playerShots.map (playerShotUpdate g.scrollSpeed dt)
    enemyShots := (g.enemyShots ++ r.shots).map (laserShotUpdate g.scrollSpeed dt) }

/-- The per-frame liveness filters. -/
def filterStep (g : GameState) : GameState :=
  { g with
    enemies := g.enemies.filter (fun e => e.alive)
    pipes := g.pipes.filter (fun p => p.alive)
    playerShots := g.playerShots.filter shotAlive
    enemyShots := g.enemyShots.filter (fun s => s.alive) }

/-- Whether some live pipe collides with the ship (the pipe loop of the
collision phase). -/
def pipeHitB (g : GameState) : Bool :=
  g.pipes.any (fun p => pipeCollides g.ship.x g.ship.y g.trenchNearHalfW g.trenchFarHalfW p)

/-- Whether some live enemy shot hits the ship (the enemy-shot loop of the
collision phase). -/
def shotHitB (g : GameState) : Bool :=
  g.enemyShots.any (fun s => enemyShotHits g.ship.x g.ship.y s)

/-- The collision/scoring/round phase of `update`: a pipe hit or an enemy
shot hit loses a life and aborts the rest of the frame; otherwise player
shots are resolved against enemies, the survival bonus accrues and the
debug round-advance key is handled. -/
def collideStep (inp : Input) (dt : ℚ) (g : GameState) : GameState :=
  if pipeHitB g then
    loseLife g
  else if shotHitB g then
    loseLife g
  else
    let r := resolveShots g.playerShots g.enemies
    let g1 := { g with
      playerShots := r.shots, enemies := r.enemies
      score := g.score + r.pts }
    let g2 := { g1 with score := g1.score + ⌊(8 + (g1.round : ℚ) * 2) * dt * 10⌋ }
    if inp.nextKey then advanceRound g2 else g2

/-- Everything `update` does before the collision phase. -/
def preCollide (amb : ℕ → ℚ) (inp : Input) (dt : ℚ) (g : GameState) : GameState :=
  let g1 := fireStep inp (integrateShip inp dt g)
  let s := spawnStep amb dt g1
  filterStep (entitiesStep amb s.2 dt s.1)

/-- One frame of `update(dt)`; `amb` supplies this frame's
`Math.random()` draws in order. -/
def update (amb : ℕ → ℚ) (inp : Input) (dt : ℚ) (g : GameState) : GameState :=
  if g.state = GState.playing then collideStep inp dt (preCollide amb inp dt g) else g

/-- A run of the simulation at fixed `dt`: `amb n` supplies frame `n`'s
ambient draws, `inputs n` its held keys. -/
def run (amb : ℕ → ℕ → ℚ) (inputs : ℕ → Input) (dt : ℚ) (g : GameState) : ℕ → GameState
  | 0 => g
  | n + 1 => update (amb n) (inputs n) dt (run amb inputs dt g n)

/-- The initial `game` object literal. -/
def initGame : GameState :=
  { state := GState.title, rng := mkRng 1337, t := 0
    trenchNearHalfW := 320, trenchFarHalfW := 120, scrollSpeed := 600
    ship := { x := 0, y := sitLowerY, vx := 0, vy := 0 }
    round := 1, score := 0, lives := 3, missiles := 3
    laserCd := 0, missileCd := 0, laserSide := -1
    enemies := [], pipes := [], playerShots := [], enemyShots := []
    enemyTimer := 9 / 10, pipeTimer := 14 / 10 }

/-- The state right after pressing ENTER on the title screen. -/
def startState : GameState := newGame initGame

/-- A placeholder enemy used only as the default of `List.getLastD`. -/
def dummyEnemy : Enemy :=
  { x := 0, y := 0, z := 0, vx := 0, vy := 0, hp := 2, alive := true, fireCd := 1 }

/-- A placeholder pipe used only as the default of `List.getLastD`. -/
def dummyPipe : Pipe :=
  { side := 1, y := 0, z := 0, protrude := 60, thickness := 10, alive := true }

/-- A live missile far behind the player, used to exhibit the missing
behind-the-player retirement of `MissileShot.update`. -/
def mBehind : MissileShot := { x := 0, y := 0, z := -1000, alive := true, trail := [] }

/-- A live laser shot used for concrete evaluations. -/
def lsEx : LaserShot :=
  { x := 0, y := 0, z := 500, owner := Owner.player, alive := true, age := 0
    speed := 980, vx := 0, vy := 0 }

/-- A live missile used for concrete evaluations. -/
def msEx : MissileShot := { x := 0, y := 0, z := 500, alive := true, trail := [] }

/-- A live enemy used for concrete evaluations. -/
def eEx : Enemy :=
  { x := 10, y := 0, z := 2000, vx := 0, vy := 0, hp := 2, alive := true, fireCd := 1 }

/-- A live pipe used for concrete evaluations. -/
def pEx : Pipe :=
  { side := 1, y := 0, z := 2000, protrude := 80, thickness := 12, alive := true }

/-- Every seeded draw is non-negative. -/
theorem rngDraw_fst_nonneg (s : ℕ) : 0 ≤ (rngDraw s).1 :=
  div_nonneg (Nat.cast_nonneg _) (by norm_num)

/-- Every seeded draw is below one. -/
theorem rngDraw_fst_lt_one (s : ℕ) : (rngDraw s).1 < 1 := by
  have h : rngStep s < 4294967296 := Nat.mod_lt _ (by norm_num)
  show (rngStep s : ℚ) / 4294967296 < 1
  rw [div_lt_one (by norm_num)]
  exact_mod_cast h

/-- A symmetric JavaScript clamp stays within its bound. -/
theorem abs_jsClamp_le (x lo hi : ℚ) (h1 : lo = -hi) (h2 : 0 ≤ hi) :
    |jsClamp x lo hi| ≤ hi := by
  subst h1
  unfold jsClamp
  rw [abs_le]
  constructor
  · exact le_max_left _ _
  · exact max_le (by linarith) (min_le_left _ _)

/-- `jsClamp` into `[0, 1]` is monotone in its input. -/
theorem jsClamp01_mono {a b : ℚ} (h : a ≤ b) : jsClamp a 0 1 ≤ jsClamp b 0 1 :=
  max_le_max le_rfl (min_le_min le_rfl h)

/-- The corridor half-width at the ship's depth is the near half-width. -/
theorem trenchHalfWAt_shipZ (near far : ℚ) : trenchHalfWAt near far shipZ = near := by
  simp [trenchHalfWAt, jsClamp, lerp, shipZ, farZ]

/-- `spawnEnemy` touches only the rng state and the enemy list. -/
theorem spawnEnemy_lives (b : Bool) (g : GameState) : (spawnEnemy b g).lives = g.lives := by
  cases g
  rfl

theorem spawnEnemy_state (b : Bool) (g : GameState) : (spawnEnemy b g).state = g.state := by
  cases g
  rfl

theorem spawnEnemy_t (b : Bool) (g : GameState) : (spawnEnemy b g).t = g.t := by
  cases g
  rfl

theorem spawnEnemy_round (b : Bool) (g : GameState) : (spawnEnemy b g).round = g.round := by
  cases g
  rfl

theorem spawnEnemy_score (b : Bool) (g : GameState) : (spawnEnemy b g).score = g.score := by
  cases g
  rfl

theorem spawnEnemy_missiles (b : Bool) (g : GameState) :
    (spawnEnemy b g).missiles = g.missiles := by
  cases g
  rfl

theorem spawnEnemy_scrollSpeed (b : Bool) (g : GameState) :
    (spawnEnemy b g).scrollSpeed = g.scrollSpeed := by
  cases g
  rfl

theorem spawnEnemy_near (b : Bool) (g : GameState) :
    (spawnEnemy b g).trenchNearHalfW = g.trenchNearHalfW := by
  cases g
  rfl

theorem spawnEnemy_far (b : Bool) (g : GameState) :
    (spawnEnemy b g).trenchFarHalfW = g.trenchFarHalfW := by
  cases g
  rfl

theorem spawnEnemy_pipes (b : Bool) (g : GameState) : (spawnEnemy b g).pipes = g.pipes := by
  cases g
  rfl

theorem spawnEnemy_playerShots (b : Bool) (g : GameState) :
    (spawnEnemy b g).playerShots = g.playerShots := by
  cases g
  rfl

theorem spawnEnemy_enemyShots (b : Bool) (g : GameState) :
    (spawnEnemy b g).enemyShots = g.enemyShots := by
  cases g
  rfl

theorem spawnEnemy_ship (b : Bool) (g : GameState) : (spawnEnemy b g).ship = g.ship := by
  cases g
  rfl

theorem spawnPipe_lives (g : GameState) : (spawnPipe g).lives = g.lives := by
  cases g
  rfl

/-- Any projection preserved by one prefill spawn is preserved by the whole
prefill loop. -/
theorem iterSpawn_proj {α : Type} (f : GameState → α)
    (hf : ∀ g, f (spawnEnemy true g) = f g) (n : ℕ) (g : GameState) :
    f ((spawnEnemy true)^[n] g) = f g := by
  induction n generalizing g with
  | zero => rfl
  | succ n ih => rw [Function.iterate_succ_apply, ih, hf]

/-- Each prefill spawn appends exactly one enemy. -/
theorem iterSpawn_len (n : ℕ) (g : GameState) :
    ((spawnEnemy true)^[n] g).enemies.length = g.enemies.length + n := by
  induction n generalizing g with
  | zero => rfl
  | succ n ih =>
    rw [Function.iterate_succ_apply, ih]
    show (g.enemies ++ _).length + n = _
    simp
    omega

theorem resetRound_state (g : GameState) : (resetRound g).state = g.state :=
  iterSpawn_proj (fun s => s.state) (spawnEnemy_state true) _ _

theorem resetRound_t (g : GameState) : (resetRound g).t = g.t :=
  iterSpawn_proj (fun s => s.t) (spawnEnemy_t true) _ _

theorem resetRound_round (g : GameState) : (resetRound g).round = g.round :=
  iterSpawn_proj (fun s => s.round) (spawnEnemy_round true) _ _

theorem resetRound_score (g : GameState) : (resetRound g).score = g.score :=
  iterSpawn_proj (fun s => s.score) (spawnEnemy_score true) _ _

theorem resetRound_lives (g : GameState) : (resetRound g).lives = g.lives :=
  iterSpawn_proj (fun s => s.lives) (spawnEnemy_lives true) _ _

theorem resetRound_missiles (g : GameState) : (resetRound g).missiles = g.missiles :=
  iterSpawn_proj (fun s => s.missiles) (spawnEnemy_missiles true) _ _

theorem resetRound_scrollSpeed (g : GameState) : (resetRound g).scrollSpeed = g.scrollSpeed :=
  iterSpawn_proj (fun s => s.scrollSpeed) (spawnEnemy_scrollSpeed true) _ _

theorem resetRound_near (g : GameState) :
    (resetRound g).trenchNearHalfW = g.trenchNearHalfW :=
  iterSpawn_proj (fun s => s.trenchNearHalfW) (spawnEnemy_near true) _ _

theorem resetRound_far (g : GameState) :
    (resetRound g).trenchFarHalfW = g.trenchFarHalfW :=
  iterSpawn_proj (fun s => s.trenchFarHalfW) (spawnEnemy_far true) _ _

theorem resetRound_pipes (g : GameState) : (resetRound g).pipes = [] :=
  iterSpawn_proj (fun s => s.pipes) (spawnEnemy_pipes true) _ _

theorem resetRound_playerShots (g : GameState) : (resetRound g).playerShots = [] :=
  iterSpawn_proj (fun s => s.playerShots) (spawnEnemy_playerShots true) _ _

theorem resetRound_enemyShots (g : GameState) : (resetRound g).enemyShots = [] :=
  iterSpawn_proj (fun s => s.enemyShots) (spawnEnemy_enemyShots true) _ _

theorem resetRound_ship (g : GameState) :
    (resetRound g).ship = { x := 0, y := sitLowerY, vx := 0, vy := 0 } :=
  iterSpawn_proj (fun s => s.ship) (spawnEnemy_ship true) _ _

/-- Re-running the reset field assignments after a reset changes nothing:
all fields they read survive a reset unchanged. -/
theorem resetRoundBase_resetRound (g : GameState) :
    resetRoundBase (resetRound g) = resetRoundBase g := by
  simp only [resetRoundBase, resetRound_state, resetRound_t, resetRound_round,
    resetRound_score, resetRound_lives, resetRound_missiles, resetRound_scrollSpeed,
    resetRound_near, resetRound_far]

/-- C2 counterexample: the spec's written formula `lerp(farHalfWidth,
nearHalfWidth, t)` disagrees with the code's `lerp(near, far, t)` at the
far depth: the code gives the far half-width 120 there, the spec's formula
gives 320. -/
theorem C2_counterexample :
    trenchHalfWAt 320 120 3000 = 120 ∧ corridorHalfWidthSpec 320 120 3000 = 320 ∧
    (120 : ℚ) ≠ 320 := by
  refine ⟨by with_unfolding_all decide, by with_unfolding_all decide, by with_unfolding_all decide⟩

/-- C2 (amended): the corridor half-width is `lerp(nearHalfWidth,
farHalfWidth, clamp((z - shipZ) / (farZ - shipZ), 0, 1))` — the argument
order of the spec's formula reversed — and with `far ≤ near` it is
monotonically non-increasing in `z`, equal to the near half-width at ship
depth and to the far half-width at the far depth. -/
theorem C2_halfwidth_monotone (near far z1 z2 : ℚ) (hnf : far ≤ near) (h12 : z1 ≤ z2) :
    trenchHalfWAt near far z2 ≤ trenchHalfWAt near far z1 ∧
    trenchHalfWAt near far shipZ = near ∧
    trenchHalfWAt near far farZ = far := by
  refine ⟨?_, trenchHalfWAt_shipZ near far, ?_⟩
  · have hd : (z1 - shipZ) / (farZ - shipZ) ≤ (z2 - shipZ) / (farZ - shipZ) := by
      simp only [shipZ, farZ]
      rw [div_le_div_iff₀ (by norm_num) (by norm_num)]
      nlinarith
    have ht := jsClamp01_mono hd
    unfold trenchHalfWAt lerp
    nlinarith [mul_nonneg (sub_nonneg.2 hnf) (sub_nonneg.2 ht)]
  · unfold trenchHalfWAt jsClamp lerp
    simp only [shipZ, farZ]
    norm_num

/-- C2 witness: monotonicity and the endpoint values at the default
corridor parameters. -/
theorem C2_witness :
    trenchHalfWAt 320 120 1000 ≤ trenchHalfWAt 320 120 500 ∧
    trenchHalfWAt 320 120 shipZ = 320 ∧
    trenchHalfWAt 320 120 farZ = 120 :=
  C2_halfwidth_monotone 320 120 500 1000 (by norm_num) (by norm_num)

/-- C5 counterexample: the state after a round reset is not entity-free —
`resetRound` pre-seeds enemies (here one, at round 1 from the initial
state). -/
theorem C5_counterexample : (resetRound initGame).enemies ≠ [] := by with_unfolding_all decide

/-- C5 (amended): `resetRound` is idempotent — applying it twice yields
exactly the state of applying it once — and the resulting state has no
pipes or shots and the ship at its default position, but it is not
entity-free: it holds exactly the `1 + min 2 (round / 2)` pre-seeded
enemies. -/
theorem C5_reset_idempotent (g : GameState) :
    resetRound (resetRound g) = resetRound g ∧
    (resetRound g).pipes = [] ∧
    (resetRound g).playerShots = [] ∧
    (resetRound g).enemyShots = [] ∧
    (resetRound g).ship = { x := 0, y := sitLowerY, vx := 0, vy := 0 } ∧
    (resetRound g).enemies.length = prefillCount g.round := by
  refine ⟨?_, resetRound_pipes g, resetRound_playerShots g, resetRound_enemyShots g,
    resetRound_ship g, ?_⟩
  · show (spawnEnemy true)^[prefillCount (resetRound g).round] (resetRoundBase (resetRound g)) =
      resetRound g
    rw [resetRound_round, resetRoundBase_resetRound]
    rfl
  · show ((spawnEnemy true)^[prefillCount g.round] (resetRoundBase g)).enemies.length =
      prefillCount g.round
    rw [iterSpawn_len]
    simp [resetRoundBase]

/-- C7 counterexample: both spawners place entities at depths that do not
exceed the far render depth `farZ` — here concretely from the start
state — so spawned entities are already inside the rendered depth range. -/
theorem C7_counterexample :
    ¬ farZ < ((spawnEnemy false startState).enemies.getLastD dummyEnemy).z ∧
    ¬ farZ < ((spawnPipe startState).pipes.getLastD dummyPipe).z := by
  refine ⟨by with_unfolding_all decide, by with_unfolding_all decide⟩

/-- C7 (amended): every spawned enemy and pipe is appended at a depth far
beyond the ship — at least `shipZ + 1600` for enemies (`shipZ + 900` for
round-start prefills) and `shipZ + 1500` for pipes — but strictly below
the far render depth `farZ`, not beyond it. -/
theorem C7_spawn_depth_bounds (g : GameState) :
    (spawnEnemy false g).enemies = g.enemies ++ [spawnedEnemy false g] ∧
    shipZ + 1600 ≤ (spawnedEnemy false g).z ∧
    (spawnedEnemy false g).z < shipZ + 2550 ∧
    (spawnedEnemy false g).z < farZ ∧
    shipZ + 900 ≤ (spawnedEnemy true g).z ∧
    (spawnedEnemy true g).z < farZ ∧
    (spawnPipe g).pipes = g.pipes ++ [spawnedPipe g] ∧
    shipZ + 1500 ≤ (spawnedPipe g).z ∧
    (spawnedPipe g).z < shipZ + 2600 ∧
    (spawnedPipe g).z < farZ := by
  have hzf : (spawnedEnemy false g).z =
      shipZ + 1600 + (rngDraw (rngDraw (rngDraw g.rng).2).2).1 * 950 := rfl
  have hzt : (spawnedEnemy true g).z =
      shipZ + 900 + (rngDraw (rngDraw (rngDraw g.rng).2).2).1 * 900 := rfl
  have hzp : (spawnedPipe g).z =
      shipZ + 1500 + (rngDraw (rngDraw g.rng).2).1 * 1100 := rfl
  have h0e := rngDraw_fst_nonneg (rngDraw (rngDraw g.rng).2).2
  have h1e := rngDraw_fst_lt_one (rngDraw (rngDraw g.rng).2).2
  have h0p := rngDraw_fst_nonneg (rngDraw g.rng).2
  have h1p := rngDraw_fst_lt_one (rngDraw g.rng).2
  have hz : shipZ = 160 := rfl
  have hf : farZ = 3000 := rfl
  refine ⟨rfl, ?_, ?_, ?_, ?_, ?_, rfl, ?_, ?_, ?_⟩
  · rw [hzf]
    linarith
  · rw [hzf]
    linarith
  · rw [hzf, hz, hf]
    linarith
  · rw [hzt]
    linarith
  · rw [hzt, hz, hf]
    linarith
  · rw [hzp]
    linarith
  · rw [hzp]
    linarith
  · rw [hzp, hz, hf]
    linarith

/-- C8 counterexample: because `project` floors its depth input at 40, the
scale at depth 0 is `580 / 620 = 29/31`, not the value 1 that the
unclamped formula `fov / (z + fov)` would give — the scale does not
approach 1 as z approaches 0. -/
theorem C8_counterexample :
    (project 960 600 105 0 0 0 0).2.2 = 29 / 31 ∧
    fov / (0 + fov) = 1 ∧
    ((29 : ℚ) / 31) ≠ 1 := by
  refine ⟨by with_unfolding_all decide, by with_unfolding_all decide, by with_unfolding_all decide⟩

/-- C8 (amended): the scale returned by `project` is
`fov / (max 40 z + fov)`: it equals `fov / (z + fov)` whenever `z ≥ 40`,
it is monotonically non-increasing in z, positive, and bounded above by
`fov / (40 + fov) = 29/31 < 1`, the value it takes for all `z ≤ 40`. -/
theorem C8_scale_properties (w h hy pt x y z z1 z2 : ℚ) (h40 : 40 ≤ z) (h12 : z1 ≤ z2) :
    (project w h hy pt x y z).2.2 = fov / (z + fov) ∧
    (project w h hy pt x y z2).2.2 ≤ (project w h hy pt x y z1).2.2 ∧
    0 < (project w h hy pt x y z1).2.2 ∧
    (project w h hy pt x y z1).2.2 ≤ 29 / 31 := by
  have hp : ∀ zz : ℚ, (project w h hy pt x y zz).2.2 = fov / (max 40 zz + fov) :=
    fun _ => rfl
  have hfov : fov = (580 : ℚ) := rfl
  have hpos : ∀ zz : ℚ, (0 : ℚ) < max 40 zz + fov := by
    intro zz
    have := le_max_left (40 : ℚ) zz
    rw [hfov]
    linarith
  refine ⟨?_, ?_, ?_, ?_⟩
  · rw [hp, max_eq_right h40]
  · rw [hp, hp]
    refine div_le_div_of_nonneg_left (by rw [hfov]; norm_num) (hpos z1) ?_
    have := max_le_max (le_refl (40 : ℚ)) h12
    linarith
  · rw [hp]
    exact div_pos (by rw [hfov]; norm_num) (hpos z1)
  · rw [hp]
    have hb : (620 : ℚ) ≤ max 40 z1 + fov := by
      have := le_max_left (40 : ℚ) z1
      rw [hfov]
      linarith
    have := div_le_div_of_nonneg_left (a := fov) (by rw [hfov]; norm_num)
      (by norm_num : (0 : ℚ) < 620) hb
    rw [hfov] at this ⊢
    linarith [this]

/-- C8 witness: the amended scale facts at depth 100 and the pair
(50, 200). -/
theorem C8_witness :
    (project 960 600 105 0 0 0 100).2.2 = fov / (100 + fov) ∧
    (project 960 600 105 0 0 0 200).2.2 ≤ (project 960 600 105 0 0 0 50).2.2 ∧
    0 < (project 960 600 105 0 0 0 50).2.2 ∧
    (project 960 600 105 0 0 0 50).2.2 ≤ 29 / 31 :=
  C8_scale_properties 960 600 105 0 0 0 100 50 200 (by norm_num) (by norm_num)

/-- C9 counterexample: round advancement leaves the near corridor
half-width unchanged (320 before and after from the start state) — it
does not narrow it. -/
theorem C9_counterexample :
    (advanceRound startState).trenchNearHalfW = startState.trenchNearHalfW ∧
    startState.trenchNearHalfW = 320 := by
  refine ⟨by with_unfolding_all decide, by with_unfolding_all decide⟩

/-- C9 (amended): the round-advance branch increments the round count,
raises the scroll speed by 40 capped at 920, refills one missile capped at
6, and performs exactly the same `resetRound` as the life-loss path — but
it leaves the near corridor half-width unchanged (no narrowing). -/
theorem C9_round_advance (g : GameState) :
    advanceRound g =
      resetRound { g with
        round := g.round + 1
        scrollSpeed := min 920 (g.scrollSpeed + 40)
        missiles := min 6 (g.missiles + 1) } ∧
    (advanceRound g).round = g.round + 1 ∧
    (advanceRound g).scrollSpeed = min 920 (g.scrollSpeed + 40) ∧
    (advanceRound g).missiles = min 6 (g.missiles + 1) ∧
    (advanceRound g).trenchNearHalfW = g.trenchNearHalfW := by
  refine ⟨rfl, ?_, ?_, ?_, ?_⟩
  · show (resetRound _).round = _
    rw [resetRound_round]
  · show (resetRound _).scrollSpeed = _
    rw [resetRound_scrollSpeed]
  · show (resetRound _).missiles = _
    rw [resetRound_missiles]
  · show (resetRound _).trenchNearHalfW = _
    rw [resetRound_near]

/-- C10: `fireLaser` is a no-op while its cooldown is positive;
`fireMissile` is a no-op while its cooldown is positive or no missiles
remain; a successful `fireMissile` removes exactly one missile and appends
exactly one shot; the missile count never becomes negative. -/
theorem C10_fire_guards (g : GameState) :
    (0 < g.laserCd → fireLaser g = g) ∧
    (0 < g.missileCd → fireMissile g = g) ∧
    (g.missiles ≤ 0 → fireMissile g = g) ∧
    (g.missileCd ≤ 0 → 0 < g.missiles →
      (fireMissile g).missiles = g.missiles - 1 ∧
      (fireMissile g).playerShots.length = g.playerShots.length + 1) ∧
    (0 ≤ g.missiles → 0 ≤ (fireMissile g).missiles) := by
  refine ⟨?_, ?_, ?_, ?_, ?_⟩
  · intro h
    unfold fireLaser
    rw [if_pos h]
  · intro h
    unfold fireMissile
    rw [if_pos h]
  · intro h
    unfold fireMissile
    split_ifs with h1
    · rfl
    · rfl
  · intro hcd hm
    unfold fireMissile
    rw [if_neg (by linarith), if_neg (by linarith)]
    constructor
    · rfl
    · show (g.playerShots ++ [_]).length = _
      simp
  · intro h
    unfold fireMissile
    split
    · exact h
    · split
      · exact h
      · show 0 ≤ g.missiles - 1
        rename_i hmle
        omega

/-- C10 witness: a successful missile shot from the start state spends one
of the three missiles and appends one shot. -/
theorem C10_witness :
    (fireMissile startState).missiles = startState.missiles - 1 ∧
    (fireMissile startState).playerShots.length = startState.playerShots.length + 1 :=
  (C10_fire_guards startState).2.2.2.1 (by with_unfolding_all decide) (by with_unfolding_all decide)

/-- `fireLaser` never changes the life count. -/
theorem fireLaser_lives (g : GameState) : (fireLaser g).lives = g.lives := by
  unfold fireLaser
  split <;> rfl

/-- `fireMissile` never changes the life count. -/
theorem fireMissile_lives (g : GameState) : (fireMissile g).lives = g.lives := by
  unfold fireMissile
  split
  · rfl
  · split <;> rfl

/-- The fire phase never changes the life count. -/
theorem fireStep_lives (inp : Input) (g : GameState) : (fireStep inp g).lives = g.lives := by
  simp only [fireStep]
  split_ifs <;> simp only [fireMissile_lives, fireLaser_lives]

/-- Input integration never changes the life count. -/
theorem integrateShip_lives (inp : Input) (dt : ℚ) (g : GameState) :
    (integrateShip inp dt g).lives = g.lives := rfl

/-- The spawner phase never changes the life count. -/
theorem spawnStep_lives (amb : ℕ → ℚ) (dt : ℚ) (g : GameState) :
    (spawnStep amb dt g).1.lives = g.lives := by
  cases g
  simp only [spawnStep]
  split_ifs <;> simp only [spawnEnemy_lives, spawnPipe_lives]

/-- The entity-update phase never changes the life count. -/
theorem entitiesStep_lives (amb : ℕ → ℚ) (k : ℕ) (dt : ℚ) (g : GameState) :
    (entitiesStep amb k dt g).lives = g.lives := rfl

/-- The filter phase never changes the life count. -/
theorem filterStep_lives (g : GameState) : (filterStep g).lives = g.lives := rfl

/-- Everything before the collision phase leaves the life count intact. -/
theorem preCollide_lives (amb : ℕ → ℚ) (inp : Input) (dt : ℚ) (g : GameState) :
    (preCollide amb inp dt g).lives = g.lives := by
  simp only [preCollide, filterStep_lives, entitiesStep_lives, spawnStep_lives,
    fireStep_lives, integrateShip_lives]

/-- The round-advance branch never changes the life count. -/
theorem advanceRound_lives (g : GameState) : (advanceRound g).lives = g.lives := by
  unfold advanceRound
  rw [resetRound_lives]

/-- Without a pipe hit or an enemy-shot hit, the collision phase never
changes the life count. -/
theorem collideStep_lives_no_hit (inp : Input) (dt : ℚ) (g : GameState)
    (hp : pipeHitB g = false) (hs : shotHitB g = false) :
    (collideStep inp dt g).lives = g.lives := by
  unfold collideStep
  rw [hp, hs]
  simp only [Bool.false_eq_true, if_false]
  split_ifs <;> simp only [advanceRound_lives]

/-- C1 counterexample: two runs from the same re-seeded start state, with
identical (empty) input sequences and identical `dt`, diverge in their
spawned pipes when the ambient `Math.random()` draws differ: the pipe
spawn decision consumes unseeded randomness, so the seed alone does not
determine the spawn sequence. -/
theorem C1_counterexample :
    (run (fun _ _ => 0) (fun _ => noInput) 2 startState 1).pipes.length = 1 ∧
    (run (fun _ _ => 1) (fun _ => noInput) 2 startState 1).pipes.length = 0 := by
  refine ⟨by with_unfolding_all decide, by with_unfolding_all decide⟩

/-- C1 (amended): the simulation is deterministic relative to all its
randomness sources: re-seeding with the same value and replaying the same
input sequence *and* the same ambient `Math.random()` draws produces
identical states frame by frame.  Without fixing the ambient draws the
claim fails, because pipe-spawn and enemy-fire decisions consume unseeded
randomness. -/
theorem C1_determinism_relative_to_ambient (amb1 amb2 : ℕ → ℕ → ℚ)
    (inputs1 inputs2 : ℕ → Input) (dt : ℚ) (g : GameState) (n : ℕ)
    (hamb : ∀ i j, amb1 i j = amb2 i j) (hinp : ∀ i, inputs1 i = inputs2 i) :
    run amb1 inputs1 dt g n = run amb2 inputs2 dt g n := by
  have h1 : amb1 = amb2 := funext fun i => funext fun j => hamb i j
  have h2 : inputs1 = inputs2 := funext hinp
  rw [h1, h2]

/-- C1 witness: two runs with equal ambient streams and equal inputs from
the start state coincide after three frames. -/
theorem C1_witness :
    run (fun _ _ => 0) (fun _ => noInput) 2 startState 3 =
      run (fun _ _ => 0) (fun _ => noInput) 2 startState 3 :=
  C1_determinism_relative_to_ambient (fun _ _ => 0) (fun _ _ => 0) (fun _ => noInput)
    (fun _ => noInput) 2 startState 3 (fun _ _ => rfl) (fun _ => rfl)

/-- C3: a life-losing collision with more than one life left resets the
current round (the same `resetRound` as round advancement: RNG re-seeded,
previous entities discarded, ship restored) and the state stays Playing;
on the last life the state becomes GameOver with no round reset; in both
cases the frame's remaining collision and scoring phases are skipped,
because `update` returns `loseLife` applied to the pre-collision state as
soon as a pipe hit (or, failing that, an enemy-shot hit) is found. -/
theorem C3_life_loss (amb : ℕ → ℚ) (inp : Input) (dt : ℚ) (g : GameState)
    (hplay : g.state = GState.playing) :
    (2 ≤ g.lives →
      loseLife g = resetRound { g with lives := g.lives - 1 } ∧
      (loseLife g).state = GState.playing) ∧
    (g.lives = 1 → loseLife g = { g with lives := 0, state := GState.gameover }) ∧
    (pipeHitB (preCollide amb inp dt g) = true →
      update amb inp dt g = loseLife (preCollide amb inp dt g)) ∧
    (pipeHitB (preCollide amb inp dt g) = false →
      shotHitB (preCollide amb inp dt g) = true →
      update amb inp dt g = loseLife (preCollide amb inp dt g)) := by
  refine ⟨?_, ?_, ?_, ?_⟩
  · intro h2
    have hcond : ¬(({ g with lives := g.lives - 1 } : GameState).lives ≤ 0) := by
      show ¬(g.lives - 1 ≤ 0)
      omega
    have hll : loseLife g = resetRound { g with lives := g.lives - 1 } := by
      unfold loseLife
      rw [if_neg hcond]
    refine ⟨hll, ?_⟩
    rw [hll, resetRound_state]
    exact hplay
  · intro h1
    have hcond : (({ g with lives := g.lives - 1 } : GameState).lives ≤ 0) := by
      show g.lives - 1 ≤ 0
      omega
    unfold loseLife
    rw [if_pos hcond]
    show ({ g with lives := g.lives - 1, state := GState.gameover } : GameState) = _
    rw [h1]
    norm_num
  · intro hp
    unfold update
    rw [if_pos hplay]
    unfold collideStep
    rw [hp]
    simp only [if_true]
  · intro hp hs
    unfold update
    rw [if_pos hplay]
    unfold collideStep
    rw [hp, hs]
    simp only [Bool.false_eq_true, if_false, if_true]

/-- C3 witness: losing a life from the start state (3 lives) resets the
round and stays in Playing. -/
theorem C3_witness :
    loseLife startState = resetRound { startState with lives := startState.lives - 1 } ∧
    (loseLife startState).state = GState.playing :=
  (C3_life_loss (fun _ => 0) noInput 1 startState rfl).1 (by with_unfolding_all decide)

/-- The clamped lateral position produced by `integrateShip`. -/
theorem integrateShip_ship_x (inp : Input) (dt : ℚ) (g : GameState) :
    (integrateShip inp dt g).ship.x =
      jsClamp (g.ship.x + (g.ship.vx + axisX inp * xAccel) * damp * dt * 60)
        (-(trenchHalfWAt g.trenchNearHalfW g.trenchFarHalfW shipZ) + padX)
        (trenchHalfWAt g.trenchNearHalfW g.trenchFarHalfW shipZ - padX) := rfl

/-- The clamped vertical position produced by `integrateShip`. -/
theorem integrateShip_ship_y (inp : Input) (dt : ℚ) (g : GameState) :
    (integrateShip inp dt g).ship.y =
      jsClamp (g.ship.y + (g.ship.vy + axisY inp * yAccel) * damp * dt * 60)
        (-trenchHalfH + padY) (trenchHalfH - padY) := rfl

/-- C4: after the per-frame clamp, the ship's lateral position is within
the corridor half-width at the ship's depth minus the padding, its
vertical position within the trench half-height minus the padding, and
the clamp is the only wall-collision mechanism: the life count can only
change in a frame through a pipe hit or an enemy-shot hit. -/
theorem C4_clamp_invariant (amb : ℕ → ℚ) (inp : Input) (dt : ℚ) (g : GameState)
    (hplay : g.state = GState.playing) (hpad : padX ≤ g.trenchNearHalfW) :
    |(integrateShip inp dt g).ship.x| ≤
      trenchHalfWAt g.trenchNearHalfW g.trenchFarHalfW shipZ - padX ∧
    |(integrateShip inp dt g).ship.y| ≤ trenchHalfH - padY ∧
    ((update amb inp dt g).lives ≠ g.lives →
      pipeHitB (preCollide amb inp dt g) = true ∨
      shotHitB (preCollide amb inp dt g) = true) := by
  refine ⟨?_, ?_, ?_⟩
  · rw [integrateShip_ship_x]
    apply abs_jsClamp_le
    · ring
    · rw [trenchHalfWAt_shipZ]
      exact sub_nonneg.2 hpad
  · rw [integrateShip_ship_y]
    apply abs_jsClamp_le
    · norm_num [trenchHalfH, padY]
    · norm_num [trenchHalfH, padY]
  · intro hne
    by_contra hno
    push_neg at hno
    obtain ⟨hp, hs⟩ := hno
    simp only [ne_eq, Bool.not_eq_true] at hp hs
    apply hne
    unfold update
    rw [if_pos hplay]
    rw [collideStep_lives_no_hit _ _ _ hp hs, preCollide_lives]

/-- C4 witness: the clamp bounds and the collision-only life-change fact
instantiated at the start state with no input held. -/
theorem C4_witness :
    |(integrateShip noInput 1 startState).ship.x| ≤
      trenchHalfWAt startState.trenchNearHalfW startState.trenchFarHalfW shipZ - padX ∧
    |(integrateShip noInput 1 startState).ship.y| ≤ trenchHalfH - padY ∧
    ((update (fun _ => 0) noInput 1 startState).lives ≠ startState.lives →
      pipeHitB (preCollide (fun _ => 0) noInput 1 startState) = true ∨
      shotHitB (preCollide (fun _ => 0) noInput 1 startState) = true) :=
  C4_clamp_invariant (fun _ => 0) noInput 1 startState rfl (by with_unfolding_all decide)

/-- C6 counterexample: a live missile far behind the player stays live
after its update — `MissileShot.update` has no behind-the-player
retirement, so "shots retire when their depth falls behind the player by
more than a margin" fails for missiles. -/
theorem C6_counterexample :
    (missileShotUpdate 600 (1 / 60) mBehind).alive = true ∧
    (missileShotUpdate 600 (1 / 60) mBehind).z < shipZ - 280 := by
  refine ⟨by with_unfolding_all decide, by with_unfolding_all decide⟩

/-- C6 (amended): after each update, a live laser is retired exactly when
its depth exceeds `farZ + 350` or falls below `shipZ - 280`; a live
missile is retired exactly when its depth exceeds `farZ + 350` (it has no
behind-the-player retirement); a live enemy is retired exactly when its
depth falls below `shipZ - 160`; a live pipe exactly when its depth falls
below `shipZ - 280`. -/
theorem C6_retirement (amb : ℕ → ℚ) (sx sy scroll dt : ℚ) (rng k : ℕ)
    (ls : LaserShot) (ms : MissileShot) (e : Enemy) (p : Pipe)
    (hl : ls.alive = true) (hm : ms.alive = true) (he : e.alive = true)
    (hp : p.alive = true) :
    ((laserShotUpdate scroll dt ls).alive = false ↔
      farZ + 350 < (laserShotUpdate scroll dt ls).z ∨
      (laserShotUpdate scroll dt ls).z < shipZ - 280) ∧
    ((missileShotUpdate scroll dt ms).alive = false ↔
      farZ + 350 < (missileShotUpdate scroll dt ms).z) ∧
    ((enemyUpdate amb sx sy scroll dt rng k e).1.alive = false ↔
      (enemyUpdate amb sx sy scroll dt rng k e).1.z < shipZ - 160) ∧
    ((pipeUpdate scroll dt p).alive = false ↔
      (pipeUpdate scroll dt p).z < shipZ - 280) := by
  refine ⟨?_, ?_, ?_, ?_⟩
  · simp only [laserShotUpdate]
    split_ifs <;> simp_all
  · simp only [missileShotUpdate]
    split_ifs <;> simp_all
  · simp only [enemyUpdate]
    split_ifs <;> simp_all
  · simp only [pipeUpdate]
    split_ifs <;> simp_all

/-- C6 witness: the retirement biconditionals at concrete live entities. -/
theorem C6_witness :
    ((laserShotUpdate 600 (1 / 60) lsEx).alive = false ↔
      farZ + 350 < (laserShotUpdate 600 (1 / 60) lsEx).z ∨
      (laserShotUpdate 600 (1 / 60) lsEx).z < shipZ - 280) ∧
    ((missileShotUpdate 600 (1 / 60) msEx).alive = false ↔
      farZ + 350 < (missileShotUpdate 600 (1 / 60) msEx).z) ∧
    ((enemyUpdate (fun _ => 0) 0 0 600 (1 / 60) 0 0 eEx).1.alive = false ↔
      (enemyUpdate (fun _ => 0) 0 0 600 (1 / 60) 0 0 eEx).1.z < shipZ - 160) ∧
    ((pipeUpdate 600 (1 / 60) pEx).alive = false ↔
      (pipeUpdate 600 (1 / 60) pEx).z < shipZ - 280) :=
  C6_retirement (fun _ => 0) 0 0 600 (1 / 60) 0 0 lsEx msEx eEx pEx rfl rfl rfl rfl

end TrenchRun
